import Mathlib

/-!
Verification development for the vidly server core
(`src/server/youtube.ts`, `src/server/routes.ts`, `src/server/storage.ts`).

The TypeScript server code is shallowly embedded as pure Lean functions:
* Node `path` manipulation on POSIX paths is modelled over explicit segment
  lists (`JsPath`);
* the filesystem is a set of existing absolute paths, assumed symlink-free,
  so `fs.realpath` is the identity on existing paths and fails otherwise;
* the Stream Supervisor (`StreamingService` in `src/server/youtube.ts`) is a
  pure state transformer over its in-memory registry plus an explicit process
  table;
* the Express route handlers are functions from a database snapshot, an
  upload-directory file set, the current time, and oracles describing the
  external platform (token refresh, video upload) to a response together with
  the resulting database, file set, and a trace of external calls made.
-/

/-! ## Node path model (POSIX)

A path is a list of segments plus an absolute flag.  `normSegs` is Node's
path normalization (resolution of `.` and `..` segments) as performed by
`path.join` / `path.resolve`. -/

deriving instance DecidableEq for Except

/-- One step of Node path normalization (processing one segment). -/
def normStep (isAbs : Bool) (acc : List String) (s : String) : List String :=
  if s = "." ∨ s = "" then acc
  else if s = ".." then
    match acc with
    | [] => if isAbs then [] else [".."]
    | a :: rest => if a = ".." then s :: acc else rest
  else s :: acc

/-- Node path normalization of a segment list (`.`/`..` resolution). -/
def normSegs (isAbs : Bool) (segs : List String) : List String :=
  (segs.foldl (normStep isAbs) []).reverse

/-- A POSIX path: absolute flag plus segments. -/
structure JsPath where
  isAbs : Bool
  segs : List String
deriving DecidableEq, Repr

/-- Node `path.join a b`: concatenate segments and normalize; the result is
absolute iff the first argument is. -/
def pjoin (a b : JsPath) : JsPath :=
  ⟨a.isAbs, normSegs a.isAbs (a.segs ++ b.segs)⟩

/-- Render a path as the string Node would produce. -/
def renderPath (p : JsPath) : String :=
  (if p.isAbs then "/" else "") ++ String.intercalate "/" p.segs

/-- JavaScript `String.prototype.startsWith` (equivalently Lean's
`String.startsWith`, restated over character lists so that it reduces). -/
def jsStartsWith (s pre : String) : Bool :=
  pre.data.isPrefixOf s.data

/-- Drop the longest common leading run of two segment lists
(used by `path.relative`). -/
def dropCommon : List String → List String → List String × List String
  | a :: as_, b :: bs =>
    if a = b then dropCommon as_ bs else (a :: as_, b :: bs)
  | as_, bs => (as_, bs)

/-- Node `path.relative from to` on two absolute normalized paths: one `..`
segment for every remaining `from` segment, then the remaining `to`
segments.  The result is always a relative path. -/
def pathRelative (fromP toP : JsPath) : JsPath :=
  let (fs, ts) := dropCommon fromP.segs toP.segs
  ⟨false, fs.map (fun _ => "..") ++ ts⟩

/-! ## Filesystem model

A symlink-free filesystem: the set of absolute paths (files and
directories) that exist.  `fs.access` succeeds exactly on existing paths and
`fs.realpath` returns an existing path unchanged (no symlinks to resolve)
and fails on missing paths. -/

/-- Filesystem: the list of existing absolute paths (as segment lists). -/
structure FileSys where
  existing : List (List String)
deriving DecidableEq, Repr

/-- `fs.access`: does the path exist? -/
def fsAccess (fsys : FileSys) (p : JsPath) : Bool :=
  fsys.existing.contains p.segs

/-- `fs.realpath` on a symlink-free filesystem: the path itself when it
exists, failure (`none`) otherwise. -/
def fsRealpath (fsys : FileSys) (p : JsPath) : Option JsPath :=
  if fsAccess fsys p then some p else none

/-! ## Stream Supervisor (`StreamingService`, src/server/youtube.ts 336-495)

The registry `activeStreams : Map<string, ActiveStream>` is an association
list keyed by stream id.  Child processes are modelled explicitly: Node's
`ChildProcess.killed` flag is set once `kill()` successfully sends a signal
(it does not indicate that the process terminated), and `exited` records
whether the OS process has actually terminated. -/

/-- A child process handle.  `killedFlag` is Node's `ChildProcess.killed`:
true once a signal has been successfully sent via `kill()`; it does not mean
the process has exited.  `signals` is the list of signals sent so far. -/
structure Proc where
  exited : Bool
  killedFlag : Bool
  signals : List String
deriving DecidableEq, Repr

/-- `ChildProcess.kill(sig)`: record the signal and set the `killed` flag. -/
def procKill (p : Proc) (sig : String) : Proc :=
  { p with killedFlag := true, signals := p.signals ++ [sig] }

/-- Entry of the `activeStreams` registry (`ActiveStream` in the source);
the process is referenced by an id into the process table. -/
structure ActiveStream where
  procId : Nat
  streamId : String
  videoPath : JsPath
  rtmpUrl : String
  startTime : Nat
deriving DecidableEq, Repr

/-- The in-memory registry: an association list keyed by stream id. -/
abbrev Registry := List (String × ActiveStream)

/-- `Map.has`. -/
def regHas (r : Registry) (k : String) : Bool :=
  r.any (fun e => e.1 = k)

/-- `Map.get`. -/
def regGet (r : Registry) (k : String) : Option ActiveStream :=
  (r.find? (fun e => e.1 = k)).map (fun e => e.2)

/-- `Map.set` (insert or overwrite). -/
def regSet (r : Registry) (k : String) (v : ActiveStream) : Registry :=
  if regHas r k then r.map (fun e => if e.1 = k then (k, v) else e)
  else r ++ [(k, v)]

/-- `Map.delete`. -/
def regDelete (r : Registry) (k : String) : Registry :=
  r.filter (fun e => ¬ e.1 = k)

/-- Process table: process id to process state. -/
abbrev ProcTable := List (Nat × Proc)

def procsGet (ps : ProcTable) (pid : Nat) : Option Proc :=
  (ps.find? (fun e => e.1 = pid)).map (fun e => e.2)

def procsUpdate (ps : ProcTable) (pid : Nat) (f : Proc → Proc) : ProcTable :=
  ps.map (fun e => if e.1 = pid then (pid, f e.2) else e)

/-- Errors thrown by `startVideoStream`. -/
inductive StartErr where
  | alreadyRunning
  | fileNotFound (p : JsPath)
deriving DecidableEq, Repr

/-- The body of the path-validation `try` block in `startVideoStream`
(src/server/youtube.ts 384-396): resolve both the candidate file and the
uploads root through `fs.realpath`, compute `path.relative` from the real
uploads root to the real file, and raise when the relative path starts with
`..` or is absolute.  Returns `true` when the block raises — whether because
`realpath` failed or because the containment check itself threw. -/
def pathValidationRaises (fsys : FileSys) (absVideo uploadsDir : JsPath) : Bool :=
  match fsRealpath fsys absVideo, fsRealpath fsys uploadsDir with
  | some realVideo, some realUploads =>
    let rel := pathRelative realUploads realVideo
    jsStartsWith (renderPath rel) ".." ∨ rel.isAbs
  | _, _ => true

/-- The `ffmpeg` argument list built by `startVideoStream`
(src/server/youtube.ts 398-413). -/
def ffmpegArgs (absVideo : JsPath) (rtmpUrl : String) (loop : Bool) : List String :=
  ["-re", "-stream_loop", if loop then "-1" else "0",
   "-i", renderPath absVideo,
   "-c:v", "libx264", "-preset", "veryfast",
   "-maxrate", "3000k", "-bufsize", "6000k",
   "-pix_fmt", "yuv420p", "-g", "50",
   "-c:a", "aac", "-b:a", "128k", "-ar", "44100",
   "-f", "flv", rtmpUrl]

/-- Result of a `startVideoStream` call: the error thrown (if any), the
registry afterwards, the argument list of the spawned process (if one was
launched), and whether the path-validation catch handler logged its
"Could not validate path location" warning. -/
structure StartOutcome where
  err : Option StartErr
  registry : Registry
  spawned : Option (List String)
  warnedPathValidation : Bool
deriving DecidableEq, Repr

/-- `StreamingService.startVideoStream` (src/server/youtube.ts 358-452).

Faithful to the source: the registry check comes first; a relative path is
joined under `<cwd>/uploads`; `fs.access` failure throws `fileNotFound`;
the symlink-containment validation runs inside a `try` block whose `catch`
only logs a warning, so a raise inside it — including the deliberate
"Video path must be within the uploads directory" throw — never aborts the
call; finally the process is spawned and the registry entry stored. -/
def startVideoStream (registry : Registry) (fsys : FileSys) (cwd : JsPath)
    (nowT procId : Nat) (streamId : String) (videoPath : JsPath)
    (rtmpUrl : String) (loop : Bool) : StartOutcome :=
  if regHas registry streamId then
    ⟨some .alreadyRunning, registry, none, false⟩
  else
    let uploadsDir := pjoin cwd ⟨false, ["uploads"]⟩
    let absVideo := if videoPath.isAbs then videoPath else pjoin uploadsDir videoPath
    if ¬ fsAccess fsys absVideo then
      ⟨some (.fileNotFound absVideo), registry, none, false⟩
    else
      let warned := pathValidationRaises fsys absVideo uploadsDir
      let args := ffmpegArgs absVideo rtmpUrl loop
      let entry : ActiveStream := ⟨procId, streamId, absVideo, rtmpUrl, nowT⟩
      ⟨none, regSet registry streamId entry, some args, warned⟩

/-- Errors thrown by `stopVideoStream`. -/
inductive StopErr where
  | notRunning
deriving DecidableEq, Repr

/-- Result of a `stopVideoStream` call. -/
structure StopOutcome where
  registry : Registry
  procs : ProcTable
  termSentTo : Nat
deriving DecidableEq, Repr

/-- `StreamingService.stopVideoStream` (src/server/youtube.ts 454-470):
throw when untracked; otherwise send SIGTERM, schedule the 5-second
`setTimeout` escalation (modelled separately by `stopTimeoutFire`), and
delete the registry entry immediately. -/
def stopVideoStream (registry : Registry) (procs : ProcTable)
    (streamId : String) : Except StopErr StopOutcome :=
  match regGet registry streamId with
  | none => .error .notRunning
  | some s =>
    let procs1 := procsUpdate procs s.procId (fun p => procKill p "SIGTERM")
    .ok ⟨regDelete registry streamId, procs1, s.procId⟩

/-- The `setTimeout` callback scheduled by `stopVideoStream`, executed
5 seconds later (src/server/youtube.ts 462-466): send SIGKILL only when
`process.killed === false`. -/
def stopTimeoutFire (procs : ProcTable) (procId : Nat) : ProcTable :=
  procsUpdate procs procId
    (fun p => if p.killedFlag = false then procKill p "SIGKILL" else p)

/-! ## Platform API Adapter request payloads (src/server/youtube.ts)

For the scheduled-upload and premiere operations the claim concerns the
request body sent to `youtube.videos.insert`; we embed the payload each
function builds.  `toIso` abstracts `new Date(s).toISOString()`. -/

/-- The `status` part of a `videos.insert` request body. -/
structure UploadStatusPayload where
  privacyStatus : String
  publishAt : Option String
  selfDeclaredMadeForKids : Option Bool
deriving DecidableEq, Repr

/-- A `videos.insert` request body (snippet + status). -/
structure VideosInsertReq where
  title : String
  description : String
  tags : Option (List String)
  status : UploadStatusPayload
deriving DecidableEq, Repr

/-- `tags && tags.length > 0 ? tags : undefined` as written in every
upload helper of src/server/youtube.ts. -/
def tagsPayload (tags : Option (List String)) : Option (List String) :=
  match tags with
  | some ts => if ts.length > 0 then some ts else none
  | none => none

/-- Request body built by `scheduleVideoUpload`
(src/server/youtube.ts 131-185): the `privacyStatus` argument is accepted
but the body hard-codes `"private"` and sets `publishAt`. -/
def scheduleVideoUploadRequest (toIso : String → String)
    (title description scheduledTime privacyStatus : String)
    (tags : Option (List String)) : VideosInsertReq :=
  ⟨title, description, tagsPayload tags,
   ⟨"private", some (toIso scheduledTime), some false⟩⟩

/-- Request body built by `scheduleVideoPremiere`
(src/server/youtube.ts 187-238): no privacy parameter exists at all; the
body hard-codes `"private"` and sets `publishAt`. -/
def scheduleVideoPremiereRequest (toIso : String → String)
    (title description scheduledStartTime : String)
    (tags : Option (List String)) : VideosInsertReq :=
  ⟨title, description, tagsPayload tags,
   ⟨"private", some (toIso scheduledStartTime), some false⟩⟩

/-! ## Entity store snapshot (src/server/storage.ts)

Records carry exactly the fields the embedded routes read or write.
Timestamps are epoch milliseconds (`Nat`). -/

/-- Per-user OAuth client credentials (`youtubeCredentials`). -/
structure CredRec where
  clientId : String
  clientSecret : String
deriving DecidableEq, Repr

/-- Per-channel OAuth token (`youtubeTokens`). -/
structure TokenRec where
  channelId : String
  accessToken : String
  refreshToken : Option String
  expiresAt : Option Nat
deriving DecidableEq, Repr

/-- A connected channel (`youtubeChannels`). -/
structure ChannelRec where
  id : String
  userId : String
deriving DecidableEq, Repr

/-- A video record (`videos`). -/
structure VideoRec where
  id : String
  userId : String
  title : String
  description : Option String
  tags : Option (List String)
  filePath : Option String
  thumbnailUrl : Option String
  status : String
  publishedChannels : List String
  youtubeVideoId : Option String
  premiereScheduledTime : Option Nat
  premiereChannelId : Option String
  premiereStatus : Option String
deriving DecidableEq, Repr

/-- The entity store. -/
structure Db where
  videos : List VideoRec
  channels : List ChannelRec
  tokens : List TokenRec
  credentials : List (String × CredRec)
deriving DecidableEq, Repr

/-- `storage.getYoutubeTokenByChannelId`. -/
def findToken (tokens : List TokenRec) (channelId : String) : Option TokenRec :=
  tokens.find? (fun t => t.channelId = channelId)

/-- `storage.updateYoutubeToken(channelId, { accessToken, expiresAt:
newTokens.expiry_date ? new Date(..) : undefined })`.  Drizzle's `.set`
skips `undefined` fields, so when the refresh response carries no
`expiry_date` the stored expiry is left unchanged. -/
def updateStoredToken (tokens : List TokenRec) (channelId newAccess : String)
    (newExpiry : Option Nat) : List TokenRec :=
  tokens.map (fun t =>
    if t.channelId = channelId then
      { t with accessToken := newAccess,
               expiresAt := match newExpiry with
                            | some e => some e
                            | none => t.expiresAt }
    else t)

/-! ## Route handlers (src/server/routes.ts)

External effects are captured by oracles (what the platform would answer)
and a trace of the calls actually made. -/

/-- HTTP error responses the handlers produce. -/
inductive ApiErr where
  | badRequest (msg : String)
  | notFound (msg : String)
  | forbidden (msg : String)
  | serverErr (msg : String)
deriving DecidableEq, Repr

/-- An external platform call made during a request. -/
inductive ExtCall where
  | refreshCall (channelId : String)
  | uploadCall (channelId : String) (accessToken : String)
  | premiereCall (accessToken : String)
deriving DecidableEq, Repr

/-- What a successful `refreshAccessToken` returns (`credentials.access_token`
and optional `credentials.expiry_date`). -/
structure RefreshResult where
  accessToken : String
  expiryDate : Option Nat
deriving DecidableEq, Repr

/-- Outcome of one `uploadVideoToYouTube` call: a response with an id,
a response without an id, or a thrown error. -/
inductive UploadOutcome where
  | succeeded (videoId : String)
  | noIdReturned
  | threw
deriving DecidableEq, Repr

/-- The token expiry check and refresh decision written inline at
src/server/routes.ts 532-553 (publish loop) and 665-683 (premiere):
`if (token.expiresAt && new Date(token.expiresAt) <= new Date())` then
refresh when a refresh token exists, otherwise fail in a site-specific way;
an absent (`null`) expiry or a future expiry uses the stored access token
as-is. -/
inductive ResolveOutcome where
  | useStored (accessToken : String)
  | doRefresh (refreshToken : String)
  | noRefreshToken
deriving DecidableEq, Repr

def resolveAccessTokenStep (tok : TokenRec) (now : Nat) : ResolveOutcome :=
  match tok.expiresAt with
  | some e =>
    if e ≤ now then
      match tok.refreshToken with
      | some rt => .doRefresh rt
      | none => .noRefreshToken
    else .useStored tok.accessToken
  | none => .useStored tok.accessToken

/-- Errors of the guarded token resolution used by the live-stream create
and delete routes. -/
inductive GuardedErr where
  | expiredNoRefresh
  | credentialsMissing
  | refreshThrew
deriving DecidableEq, Repr

/-- The token expiry check and refresh written inline at
src/server/routes.ts 843-868 (POST /api/live-streams) and 961-987
(DELETE /api/live-streams/:id): same expiry condition, but the missing
refresh token and missing credentials are rejected with dedicated errors
before the refresh call.  Returns the access token to use together with
whether a refresh call was made. -/
def resolveAccessTokenGuarded (tok : TokenRec) (creds : Option CredRec)
    (now : Nat) (refreshO : String → Option RefreshResult) :
    Except GuardedErr (String × Bool) :=
  match tok.expiresAt with
  | some e =>
    if e ≤ now then
      match tok.refreshToken with
      | none => .error .expiredNoRefresh
      | some rt =>
        match creds with
        | none => .error .credentialsMissing
        | some _ =>
          match refreshO rt with
          | none => .error .refreshThrew
          | some r => .ok (r.accessToken, true)
    else .ok (tok.accessToken, false)
  | none => .ok (tok.accessToken, false)

/-! ### POST /api/videos/:id/publish (src/server/routes.ts 484-605) -/

/-- Loop state of the per-channel publish loop
(src/server/routes.ts 524-575). -/
structure PublishState where
  tokens : List TokenRec
  published : List String
  vidIds : List (String × String)
  calls : List ExtCall
deriving DecidableEq, Repr

/-- One iteration of the publish loop for channel `c`
(src/server/routes.ts 527-575): skip silently when no token row exists;
refresh an expired token when a refresh token is present (persisting the
new token) and skip the channel when it is absent or the refresh throws;
then upload, recording the channel and returned id on success; a thrown
upload error is caught and logged. -/
def publishChannelStep (now : Nat) (refreshO : String → Option RefreshResult)
    (uploadO : String → String → UploadOutcome)
    (st : PublishState) (c : String) : PublishState :=
  match findToken st.tokens c with
  | none => st
  | some tok =>
    match resolveAccessTokenStep tok now with
    | .noRefreshToken => st
    | .useStored a =>
      let calls := st.calls ++ [ExtCall.uploadCall c a]
      match uploadO c a with
      | .succeeded vid =>
        { st with calls, published := st.published ++ [c],
                  vidIds := st.vidIds ++ [(c, vid)] }
      | .noIdReturned => { st with calls }
      | .threw => { st with calls }
    | .doRefresh rt =>
      let calls0 := st.calls ++ [ExtCall.refreshCall c]
      match refreshO rt with
      | none => { st with calls := calls0 }
      | some r =>
        let tokens := updateStoredToken st.tokens c r.accessToken r.expiryDate
        let calls := calls0 ++ [ExtCall.uploadCall c r.accessToken]
        match uploadO c r.accessToken with
        | .succeeded vid =>
          { tokens, calls, published := st.published ++ [c],
            vidIds := st.vidIds ++ [(c, vid)] }
        | .noIdReturned => { st with tokens, calls }
        | .threw => { st with tokens, calls }

/-- `storage.updateVideo(id, { status: 'published', publishedChannels,
youtubeVideoId: firstVideoId })` (src/server/routes.ts 580-584).  Drizzle's
`.set` skips `undefined`, so when no upload succeeded the stored
`youtubeVideoId` column is left unchanged. -/
def applyPublishUpdate (v : VideoRec) (published : List String)
    (firstVideoId : Option String) : VideoRec :=
  { v with status := "published", publishedChannels := published,
           youtubeVideoId := match firstVideoId with
                             | some i => some i
                             | none => v.youtubeVideoId }

/-- Success payload of the publish endpoint. -/
structure PublishResp where
  publishedChannels : List String
  youtubeVideoIds : List (String × String)
deriving DecidableEq, Repr

/-- Full result of a publish request. -/
structure PublishOutcome where
  response : Except ApiErr PublishResp
  db : Db
  files : List String
  calls : List ExtCall
deriving DecidableEq, Repr

/-- The handler of POST /api/videos/:id/publish
(src/server/routes.ts 484-605), in source order: body validation
(`channelIds` non-empty), video lookup, ownership, file-path presence,
ownership of every requested channel (the first non-owned id aborts with
403), credentials presence, then the per-channel loop; afterwards the video
row is marked published, the first returned external id stored, the local
file unlinked best-effort, and the success payload returned. -/
def publishHandler (db : Db) (files : List String) (now : Nat)
    (refreshO : String → Option RefreshResult)
    (uploadO : String → String → UploadOutcome)
    (userId vidId : String) (channelIds : List String) : PublishOutcome :=
  if channelIds.isEmpty then
    ⟨.error (.badRequest "channelIds must contain at least 1 element(s)"), db, files, []⟩
  else
    match db.videos.find? (fun v => v.id = vidId) with
    | none => ⟨.error (.notFound "Video not found"), db, files, []⟩
    | some video =>
      if video.userId ≠ userId then
        ⟨.error (.forbidden "Not authorized to publish this video"), db, files, []⟩
      else
        match video.filePath with
        | none => ⟨.error (.badRequest "Video file not found"), db, files, []⟩
        | some fp =>
          let userChannelIds := (db.channels.filter (fun c => c.userId = userId)).map (fun c => c.id)
          match channelIds.find? (fun c => ¬ userChannelIds.contains c) with
          | some _ => ⟨.error (.forbidden "Channel not found or not authorized"), db, files, []⟩
          | none =>
            match db.credentials.find? (fun e => e.1 = userId) with
            | none =>
              ⟨.error (.badRequest "YouTube API credentials not configured. Please add them in Settings first."),
               db, files, []⟩
            | some _ =>
              let st := channelIds.foldl (publishChannelStep now refreshO uploadO)
                ⟨db.tokens, [], [], []⟩
              let firstVideoId := st.vidIds.head?.map (fun e => e.2)
              let db' : Db :=
                { db with tokens := st.tokens,
                          videos := db.videos.map (fun v =>
                            if v.id = vidId then applyPublishUpdate v st.published firstVideoId
                            else v) }
              let files' := files.filter (fun f => f ≠ fp)
              ⟨.ok ⟨st.published, st.vidIds⟩, db', files', st.calls⟩

/-! ### POST /api/videos/:id/premiere (src/server/routes.ts 613-729) -/

/-- Success payload of the premiere endpoint. -/
structure PremiereResp where
  youtubeVideoId : String
  scheduledTime : Nat
deriving DecidableEq, Repr

/-- Full result of a premiere request. -/
structure PremiereOutcome where
  response : Except ApiErr PremiereResp
  db : Db
  files : List String
  calls : List ExtCall
deriving DecidableEq, Repr

/-- The external premiere upload and its success continuation
(src/server/routes.ts 685-721): call `scheduleVideoPremiere` (a throw
surfaces as the outer 500 handler), then persist the premiere fields on the
video row and unlink the local file best-effort. -/
def premiereUploadPhase (db : Db) (files : List String) (vidId channelId : String)
    (scheduled : Nat) (fp a : String)
    (callsBefore : List ExtCall) (premiereO : String → Option String) : PremiereOutcome :=
  let calls := callsBefore ++ [ExtCall.premiereCall a]
  match premiereO a with
  | none => ⟨.error (.serverErr "Failed to schedule premiere"), db, files, calls⟩
  | some vid =>
    let db' := { db with videos := db.videos.map (fun v =>
      if v.id = vidId then
        { v with premiereScheduledTime := some scheduled,
                 premiereChannelId := some channelId,
                 youtubeVideoId := some vid,
                 premiereStatus := some "scheduled",
                 status := "premiere_scheduled" }
      else v) }
    let files' := files.filter (fun f => f ≠ fp)
    ⟨.ok ⟨vid, scheduled⟩, db', files', calls⟩

/-- The handler of POST /api/videos/:id/premiere
(src/server/routes.ts 613-729), in source order: the two scheduled-time
checks come first (before any store lookup or external call), then video
lookup/ownership/file-path checks, channel ownership, token and credentials
presence, expiry check with refresh (a thrown refresh surfaces as the outer
500 handler), the external `scheduleVideoPremiere` call, the video-row
premiere update, and the best-effort file unlink. -/
def premiereHandler (db : Db) (files : List String) (now : Nat)
    (refreshO : String → Option RefreshResult)
    (premiereO : String → Option String)
    (userId vidId channelId : String) (scheduled : Nat) : PremiereOutcome :=
  if scheduled ≤ now then
    ⟨.error (.badRequest "Scheduled time must be in the future"), db, files, []⟩
  else if scheduled < now + 5 * 60 * 1000 then
    ⟨.error (.badRequest "Scheduled time must be at least 5 minutes in the future"), db, files, []⟩
  else
    match db.videos.find? (fun v => v.id = vidId) with
    | none => ⟨.error (.notFound "Video not found"), db, files, []⟩
    | some video =>
      if video.userId ≠ userId then
        ⟨.error (.forbidden "Not authorized"), db, files, []⟩
      else
        match video.filePath with
        | none => ⟨.error (.badRequest "Video file not found"), db, files, []⟩
        | some fp =>
          match db.channels.find? (fun c => c.userId = userId ∧ c.id = channelId) with
          | none => ⟨.error (.forbidden "Channel not found or not authorized"), db, files, []⟩
          | some _ =>
            match findToken db.tokens channelId with
            | none => ⟨.error (.badRequest "Channel not authenticated"), db, files, []⟩
            | some tok =>
              match db.credentials.find? (fun e => e.1 = userId) with
              | none =>
                ⟨.error (.badRequest "YouTube API credentials not configured"), db, files, []⟩
              | some _ =>
                match resolveAccessTokenStep tok now with
                | .noRefreshToken =>
                  ⟨.error (.badRequest "Token expired. Please reconnect the channel."), db, files, []⟩
                | .useStored a =>
                  premiereUploadPhase db files vidId channelId scheduled fp a [] premiereO
                | .doRefresh rt =>
                  match refreshO rt with
                  | none =>
                    ⟨.error (.serverErr "Failed to schedule premiere"), db, files,
                     [ExtCall.refreshCall channelId]⟩
                  | some r =>
                    let db1 := { db with
                      tokens := updateStoredToken db.tokens channelId r.accessToken r.expiryDate }
                    premiereUploadPhase db1 files vidId channelId scheduled fp
                      r.accessToken [ExtCall.refreshCall channelId] premiereO

/-! ## Characterization of the publish loop

The loop's result is characterized per channel, as a function of the token
table the loop started from (each iteration only touches its own channel's
token row). -/

/-- The access token the publish loop would use for channel `c`, if any:
the stored token when not expired, the refreshed token when the refresh
succeeds, `none` when the channel has no token row, an expired token has no
refresh token, or the refresh throws. -/
def channelResolvedAccess (tokens : List TokenRec) (now : Nat)
    (refreshO : String → Option RefreshResult) (c : String) : Option String :=
  match findToken tokens c with
  | none => none
  | some tok =>
    match resolveAccessTokenStep tok now with
    | .useStored a => some a
    | .noRefreshToken => none
    | .doRefresh rt => (refreshO rt).map (fun r => r.accessToken)

/-- A channel is attempted (an upload call is made for it) exactly when an
access token could be resolved for it. -/
def channelTokenUsable (tokens : List TokenRec) (now : Nat)
    (refreshO : String → Option RefreshResult) (c : String) : Bool :=
  (channelResolvedAccess tokens now refreshO c).isSome

/-- Whether the upload for channel `c` succeeds with an id. -/
def channelUploadSucceeds (tokens : List TokenRec) (now : Nat)
    (refreshO : String → Option RefreshResult)
    (uploadO : String → String → UploadOutcome) (c : String) : Bool :=
  match channelResolvedAccess tokens now refreshO c with
  | none => false
  | some a =>
    match uploadO c a with
    | .succeeded _ => true
    | _ => false

/-- The `(channelId, youtubeVideoId)` entry channel `c` contributes. -/
def channelVidEntry (tokens : List TokenRec) (now : Nat)
    (refreshO : String → Option RefreshResult)
    (uploadO : String → String → UploadOutcome) (c : String) :
    List (String × String) :=
  match channelResolvedAccess tokens now refreshO c with
  | none => []
  | some a =>
    match uploadO c a with
    | .succeeded vid => [(c, vid)]
    | _ => []

/-- The external calls the loop iteration for channel `c` makes. -/
def channelCallTrace (tokens : List TokenRec) (now : Nat)
    (refreshO : String → Option RefreshResult) (c : String) : List ExtCall :=
  match findToken tokens c with
  | none => []
  | some tok =>
    match resolveAccessTokenStep tok now with
    | .useStored a => [.uploadCall c a]
    | .noRefreshToken => []
    | .doRefresh rt =>
      match refreshO rt with
      | none => [.refreshCall c]
      | some r => [.refreshCall c, .uploadCall c r.accessToken]

/-- Is there an upload call for channel `c` in a call trace? -/
def hasUploadCall (calls : List ExtCall) (c : String) : Bool :=
  calls.any (fun e =>
    match e with
    | .uploadCall c' _ => c' = c
    | _ => false)

theorem findToken_updateStoredToken_ne (tokens : List TokenRec)
    (c newA : String) (newE : Option Nat) (c' : String) (h : c' ≠ c) :
    findToken (updateStoredToken tokens c newA newE) c' = findToken tokens c' := by
  induction tokens with
  | nil => rfl
  | cons t ts ih =>
    by_cases hc : t.channelId = c
    · have hne : ¬ (t.channelId = c') := fun hh => h (by rw [← hh, hc])
      simp only [findToken, updateStoredToken, List.map_cons, List.find?_cons, if_pos hc]
      simp only [findToken, updateStoredToken] at ih
      simp [hne, ih]
    · simp only [findToken, updateStoredToken, List.map_cons, List.find?_cons, if_neg hc]
      by_cases hc' : t.channelId = c'
      · simp [hc']
      · simp only [findToken, updateStoredToken] at ih
        simp [hc', ih]

/-- Effect of one publish-loop iteration, characterized against the token
table `tokens0` the loop started from (valid whenever the current state's
token row for `c` still agrees with `tokens0`). -/
theorem publishChannelStep_spec (now : Nat) (refreshO : String → Option RefreshResult)
    (uploadO : String → String → UploadOutcome) (tokens0 : List TokenRec)
    (st : PublishState) (c : String)
    (h : findToken st.tokens c = findToken tokens0 c) :
    (publishChannelStep now refreshO uploadO st c).published
      = st.published ++ (if channelUploadSucceeds tokens0 now refreshO uploadO c then [c] else []) ∧
    (publishChannelStep now refreshO uploadO st c).vidIds
      = st.vidIds ++ channelVidEntry tokens0 now refreshO uploadO c ∧
    (publishChannelStep now refreshO uploadO st c).calls
      = st.calls ++ channelCallTrace tokens0 now refreshO c ∧
    ∀ c', c' ≠ c → findToken (publishChannelStep now refreshO uploadO st c).tokens c'
      = findToken st.tokens c' := by
  unfold publishChannelStep channelUploadSucceeds channelVidEntry channelCallTrace channelResolvedAccess
  rw [h]
  cases hft : findToken tokens0 c with
  | none => simp
  | some tok =>
    cases hro : resolveAccessTokenStep tok now with
    | useStored a =>
      cases hup : uploadO c a <;> simp [hro, hup]
    | noRefreshToken => simp [hro]
    | doRefresh rt =>
      cases hrr : refreshO rt with
      | none => simp [hro, hrr]
      | some r =>
        cases hup : uploadO c r.accessToken <;>
          (simp [hro, hrr, hup]
           <;> exact fun c' hc' => findToken_updateStoredToken_ne _ _ _ _ _ hc')

theorem publishFold_spec (now : Nat) (refreshO : String → Option RefreshResult)
    (uploadO : String → String → UploadOutcome) (tokens0 : List TokenRec) :
    ∀ (cs : List String) (st : PublishState),
      cs.Nodup →
      (∀ c ∈ cs, findToken st.tokens c = findToken tokens0 c) →
      (cs.foldl (publishChannelStep now refreshO uploadO) st).published
        = st.published ++ cs.filter (fun c => channelUploadSucceeds tokens0 now refreshO uploadO c) ∧
      (cs.foldl (publishChannelStep now refreshO uploadO) st).vidIds
        = st.vidIds ++ (cs.map (channelVidEntry tokens0 now refreshO uploadO)).join ∧
      (cs.foldl (publishChannelStep now refreshO uploadO) st).calls
        = st.calls ++ (cs.map (channelCallTrace tokens0 now refreshO)).join := by
  intro cs
  induction cs with
  | nil => intro st _ _; simp
  | cons c cs ih =>
    intro st hnd hag
    have hc : findToken st.tokens c = findToken tokens0 c := hag c (by simp)
    obtain ⟨hp, hv, hcalls, hother⟩ := publishChannelStep_spec now refreshO uploadO tokens0 st c hc
    have hnd' : cs.Nodup := (List.nodup_cons.mp hnd).2
    have hnotmem : c ∉ cs := (List.nodup_cons.mp hnd).1
    have hag' : ∀ c' ∈ cs,
        findToken (publishChannelStep now refreshO uploadO st c).tokens c'
          = findToken tokens0 c' := by
      intro c' hmem
      rw [hother c' (fun hh => hnotmem (hh ▸ hmem)), hag c' (List.mem_cons_of_mem _ hmem)]
    obtain ⟨ih1, ih2, ih3⟩ := ih (publishChannelStep now refreshO uploadO st c) hnd' hag'
    refine ⟨?_, ?_, ?_⟩
    · rw [List.foldl_cons, ih1, hp]
      by_cases hs : channelUploadSucceeds tokens0 now refreshO uploadO c = true
      · simp [List.filter_cons, hs]
      · simp only [Bool.not_eq_true] at hs
        simp [List.filter_cons, hs]
    · rw [List.foldl_cons, ih2, hv]; simp
    · rw [List.foldl_cons, ih3, hcalls]; simp

theorem hasUploadCall_append (l1 l2 : List ExtCall) (c : String) :
    hasUploadCall (l1 ++ l2) c = (hasUploadCall l1 c || hasUploadCall l2 c) := by
  simp [hasUploadCall, List.any_append]

theorem hasUploadCall_join (ls : List (List ExtCall)) (c : String) :
    hasUploadCall ls.join c = ls.any (fun l => hasUploadCall l c) := by
  induction ls with
  | nil => rfl
  | cons l ls ih => simp [List.join, hasUploadCall_append, ih, List.any_cons]

theorem hasUploadCall_channelCallTrace (tokens0 : List TokenRec) (now : Nat)
    (refreshO : String → Option RefreshResult) (c' c : String) :
    hasUploadCall (channelCallTrace tokens0 now refreshO c') c
      = (decide (c' = c) && channelTokenUsable tokens0 now refreshO c') := by
  unfold channelCallTrace channelTokenUsable channelResolvedAccess hasUploadCall
  cases hft : findToken tokens0 c' with
  | none => simp [hft]
  | some tok =>
    cases hro : resolveAccessTokenStep tok now with
    | useStored a => simp [hft, hro]
    | noRefreshToken => simp [hft, hro]
    | doRefresh rt => cases hrr : refreshO rt <;> simp [hft, hro, hrr]

theorem any_marker_eq (cs : List String) (c : String) (f : String → Bool) :
    cs.any (fun c' => decide (c' = c) && f c') = (cs.contains c && f c) := by
  induction cs with
  | nil => rfl
  | cons d ds ih =>
    by_cases h : d = c
    · subst h
      simp only [List.any_cons, ih, List.contains_cons]
      cases f d <;> cases ds.contains d <;> simp
    · have h' : ¬ c = d := fun hh => h hh.symm
      simp [List.any_cons, ih, List.contains_cons, h, h']

theorem publishHandler_validated
    (db : Db) (files : List String) (now : Nat)
    (refreshO : String → Option RefreshResult)
    (uploadO : String → String → UploadOutcome)
    (userId vidId : String) (channelIds : List String)
    (video : VideoRec) (fp : String)
    (hne : channelIds.isEmpty = false)
    (hv : db.videos.find? (fun v => v.id = vidId) = some video)
    (hown : video.userId = userId)
    (hfp : video.filePath = some fp)
    (hch : channelIds.find? (fun c =>
      ¬ ((db.channels.filter (fun ch => ch.userId = userId)).map (fun ch => ch.id)).contains c) = none)
    (hcred : (db.credentials.find? (fun e => e.1 = userId)).isSome = true) :
    publishHandler db files now refreshO uploadO userId vidId channelIds =
      (let st := channelIds.foldl (publishChannelStep now refreshO uploadO) ⟨db.tokens, [], [], []⟩
       ⟨.ok ⟨st.published, st.vidIds⟩,
        { db with tokens := st.tokens,
                  videos := db.videos.map (fun v =>
                    if v.id = vidId then
                      applyPublishUpdate v st.published (st.vidIds.head?.map (fun e => e.2))
                    else v) },
        files.filter (fun f => f ≠ fp), st.calls⟩) := by
  obtain ⟨cred, hcred'⟩ := Option.isSome_iff_exists.mp hcred
  unfold publishHandler
  simp only [hne, hv, hown, hfp, hch, hcred']
  simp

/-- Is a response a 400 precondition rejection? -/
def respIsBadRequest {α : Type} : Except ApiErr α → Bool :=
  fun r =>
    match r with
    | .error (.badRequest _) => true
    | _ => false

theorem find?_map_update (l : List VideoRec) (vidId : String) (f : VideoRec → VideoRec)
    (hf : ∀ v, (f v).id = v.id) :
    (l.map (fun v => if v.id = vidId then f v else v)).find? (fun v => v.id = vidId)
      = (l.find? (fun v => v.id = vidId)).map f := by
  induction l with
  | nil => rfl
  | cons v vs ih =>
    by_cases h : v.id = vidId
    · simp [List.find?_cons, h, hf]
    · simp [List.find?_cons, h, ih]

theorem channelVidEntry_eq_nil (tokens0 : List TokenRec) (now : Nat)
    (refreshO : String → Option RefreshResult)
    (uploadO : String → String → UploadOutcome) (c : String)
    (h : channelUploadSucceeds tokens0 now refreshO uploadO c = false) :
    channelVidEntry tokens0 now refreshO uploadO c = [] := by
  unfold channelVidEntry
  unfold channelUploadSucceeds at h
  cases hra : channelResolvedAccess tokens0 now refreshO c with
  | none => simp [hra]
  | some a =>
    simp only [hra] at h
    cases hup : uploadO c a with
    | succeeded vid => simp [hup] at h
    | noIdReturned => simp [hra, hup]
    | threw => simp [hra, hup]

/-- C7: a `startVideoStream` call on a stream id that is already tracked
fails with `AlreadyRunning`, leaves the registry unchanged, and spawns no
second process. -/
theorem start_already_running_rejected
    (registry : Registry) (fsys : FileSys) (cwd : JsPath) (nowT procId : Nat)
    (streamId : String) (videoPath : JsPath) (rtmpUrl : String) (loop : Bool)
    (h : regHas registry streamId = true) :
    startVideoStream registry fsys cwd nowT procId streamId videoPath rtmpUrl loop
      = ⟨some StartErr.alreadyRunning, registry, none, false⟩ := by
  unfold startVideoStream
  simp [h]

theorem start_already_running_rejected_witness :
    regHas [("s1", (⟨7, "s1", ⟨true, ["app", "uploads", "v.mp4"]⟩, "u", 0⟩ : ActiveStream))] "s1" = true ∧
    startVideoStream [("s1", ⟨7, "s1", ⟨true, ["app", "uploads", "v.mp4"]⟩, "u", 0⟩)]
        ⟨[["app", "uploads"], ["app", "uploads", "v.mp4"]]⟩ ⟨true, ["app"]⟩ 3 8 "s1"
        ⟨false, ["v.mp4"]⟩ "u" true
      = ⟨some StartErr.alreadyRunning,
         [("s1", ⟨7, "s1", ⟨true, ["app", "uploads", "v.mp4"]⟩, "u", 0⟩)], none, false⟩ :=
  ⟨by decide,
   start_already_running_rejected _ _ _ _ _ _ _ _ _ (by decide)⟩

/-- C1: contrary to the claim, a `start` call whose relative video path
escapes the upload root via `..` segments (here `../../etc/passwd`, with
`/etc/passwd` existing) does NOT fail with a path-validation error: the
containment check does detect the escape (`pathValidationRaises` is true),
but its throw is swallowed by the surrounding catch, which merely logs a
warning, and the re-streaming process is spawned on the escaped path and
tracked in the registry. -/
theorem startVideoStream_traversal_escape_spawns :
    (startVideoStream [] ⟨[["app", "uploads"], ["etc", "passwd"]]⟩ ⟨true, ["app"]⟩ 0 1 "s1"
        ⟨false, ["..", "..", "etc", "passwd"]⟩ "rtmp://a.example/live/key" true).err = none ∧
    (startVideoStream [] ⟨[["app", "uploads"], ["etc", "passwd"]]⟩ ⟨true, ["app"]⟩ 0 1 "s1"
        ⟨false, ["..", "..", "etc", "passwd"]⟩ "rtmp://a.example/live/key" true).spawned
      = some (ffmpegArgs ⟨true, ["etc", "passwd"]⟩ "rtmp://a.example/live/key" true) ∧
    regHas (startVideoStream [] ⟨[["app", "uploads"], ["etc", "passwd"]]⟩ ⟨true, ["app"]⟩ 0 1 "s1"
        ⟨false, ["..", "..", "etc", "passwd"]⟩ "rtmp://a.example/live/key" true).registry "s1" = true ∧
    (startVideoStream [] ⟨[["app", "uploads"], ["etc", "passwd"]]⟩ ⟨true, ["app"]⟩ 0 1 "s1"
        ⟨false, ["..", "..", "etc", "passwd"]⟩ "rtmp://a.example/live/key" true).warnedPathValidation = true ∧
    pathValidationRaises ⟨[["app", "uploads"], ["etc", "passwd"]]⟩ ⟨true, ["etc", "passwd"]⟩
        ⟨true, ["app", "uploads"]⟩ = true := by
  decide

/-- C6: contrary to the claim, after `stop` sends the graceful SIGTERM the
process's `killed` flag is already true (it only records that a signal was
sent), so the 5-second timeout's `killed === false` guard never fires and
no SIGKILL is ever sent, even though the process has not exited.  The parts
of the claim that do hold are also recorded: SIGTERM is sent and the
registry entry is removed immediately. -/
theorem stop_sigkill_escalation_never_fires :
    stopVideoStream [("s1", ⟨7, "s1", ⟨true, ["app", "uploads", "v.mp4"]⟩, "rtmp://a/k", 0⟩)]
        [(7, ⟨false, false, []⟩)] "s1"
      = Except.ok ⟨[], [(7, ⟨false, true, ["SIGTERM"]⟩)], 7⟩ ∧
    stopTimeoutFire [(7, ⟨false, true, ["SIGTERM"]⟩)] 7 = [(7, ⟨false, true, ["SIGTERM"]⟩)] ∧
    ((stopTimeoutFire [(7, ⟨false, true, ["SIGTERM"]⟩)] 7).map
        (fun e => e.2.signals.contains "SIGKILL")) = [false] ∧
    (⟨false, true, ["SIGTERM"]⟩ : Proc).exited = false := by
  decide

/-- C9: a stored token whose expiry timestamp is null is treated as valid
by every token-resolution site, for every current time: the publish loop
and premiere handler (`resolveAccessTokenStep`) use the stored access token
as-is, the live-stream create/delete sites (`resolveAccessTokenGuarded`)
return it without any refresh call or reconnect error, and the publish
loop's external-call trace for such a channel is a single upload with the
stored token — no refresh call. -/
theorem null_expiry_token_used_as_is
    (tok : TokenRec) (now : Nat) (creds : Option CredRec)
    (refreshO : String → Option RefreshResult)
    (h : tok.expiresAt = none) :
    resolveAccessTokenStep tok now = ResolveOutcome.useStored tok.accessToken ∧
    resolveAccessTokenGuarded tok creds now refreshO = Except.ok (tok.accessToken, false) ∧
    channelCallTrace [tok] now refreshO tok.channelId
      = [ExtCall.uploadCall tok.channelId tok.accessToken] := by
  simp [resolveAccessTokenStep, resolveAccessTokenGuarded, channelCallTrace, findToken, h]

theorem null_expiry_token_used_as_is_witness :
    (⟨"A", "tokA", some "r", none⟩ : TokenRec).expiresAt = none ∧
    (resolveAccessTokenStep ⟨"A", "tokA", some "r", none⟩ 999
        = ResolveOutcome.useStored "tokA" ∧
     resolveAccessTokenGuarded ⟨"A", "tokA", some "r", none⟩ none 999 (fun _ => none)
        = Except.ok ("tokA", false) ∧
     channelCallTrace [⟨"A", "tokA", some "r", none⟩] 999 (fun _ => none) "A"
        = [ExtCall.uploadCall "A" "tokA"]) :=
  ⟨rfl, null_expiry_token_used_as_is ⟨"A", "tokA", some "r", none⟩ 999 none (fun _ => none) rfl⟩

/-- C4: every scheduled upload and every premiere sends privacy status
`"private"` to the platform with a future `publishAt`; the privacy the
caller passes to `scheduleVideoUpload` is accepted but has no effect on the
request. -/
theorem scheduled_and_premiere_uploads_forced_private
    (toIso : String → String) (title description scheduledTime p p' : String)
    (tags : Option (List String)) :
    (scheduleVideoUploadRequest toIso title description scheduledTime p tags).status.privacyStatus
      = "private" ∧
    scheduleVideoUploadRequest toIso title description scheduledTime p tags
      = scheduleVideoUploadRequest toIso title description scheduledTime p' tags ∧
    (scheduleVideoUploadRequest toIso title description scheduledTime p tags).status.publishAt
      = some (toIso scheduledTime) ∧
    (scheduleVideoPremiereRequest toIso title description scheduledTime tags).status.privacyStatus
      = "private" ∧
    (scheduleVideoPremiereRequest toIso title description scheduledTime tags).status.publishAt
      = some (toIso scheduledTime) :=
  ⟨rfl, rfl, rfl, rfl, rfl⟩

/-- C5: a premiere request whose scheduled time is less than 5 minutes
after the current time is rejected with a 400 precondition error before
any store mutation or external call. -/
theorem premiere_lead_time_rejected
    (db : Db) (files : List String) (now : Nat)
    (refreshO : String → Option RefreshResult) (premiereO : String → Option String)
    (userId vidId channelId : String) (scheduled : Nat)
    (h : scheduled < now + 5 * 60 * 1000) :
    respIsBadRequest (premiereHandler db files now refreshO premiereO userId vidId channelId scheduled).response = true ∧
    (premiereHandler db files now refreshO premiereO userId vidId channelId scheduled).calls = [] ∧
    (premiereHandler db files now refreshO premiereO userId vidId channelId scheduled).db = db ∧
    (premiereHandler db files now refreshO premiereO userId vidId channelId scheduled).files = files := by
  unfold premiereHandler
  by_cases h1 : scheduled ≤ now
  · simp [h1, respIsBadRequest]
  · simp [h1, h, respIsBadRequest]

theorem premiere_lead_time_rejected_witness :
    (299999 : Nat) < 0 + 5 * 60 * 1000 ∧
    (respIsBadRequest (premiereHandler ⟨[], [], [], []⟩ [] 0 (fun _ => none) (fun _ => none)
        "u" "v" "A" 299999).response = true ∧
     (premiereHandler ⟨[], [], [], []⟩ [] 0 (fun _ => none) (fun _ => none) "u" "v" "A" 299999).calls = [] ∧
     (premiereHandler ⟨[], [], [], []⟩ [] 0 (fun _ => none) (fun _ => none) "u" "v" "A" 299999).db = ⟨[], [], [], []⟩ ∧
     (premiereHandler ⟨[], [], [], []⟩ [] 0 (fun _ => none) (fun _ => none) "u" "v" "A" 299999).files = []) :=
  ⟨by decide,
   premiere_lead_time_rejected ⟨[], [], [], []⟩ [] 0 (fun _ => none) (fun _ => none) "u" "v" "A" 299999 (by decide)⟩

/-- C2: a multi-channel publish request containing any channel id not owned
by the caller is rejected whole with an authorization error, with no
external call made (neither refresh nor upload), no channel published to,
and the store and upload directory untouched. -/
theorem publish_rejects_unowned_channel_entirely
    (db : Db) (files : List String) (now : Nat)
    (refreshO : String → Option RefreshResult)
    (uploadO : String → String → UploadOutcome)
    (userId vidId : String) (channelIds : List String)
    (video : VideoRec) (fp : String) (c0 : String)
    (hne : channelIds.isEmpty = false)
    (hv : db.videos.find? (fun v => v.id = vidId) = some video)
    (hown : video.userId = userId)
    (hfp : video.filePath = some fp)
    (hmem : c0 ∈ channelIds)
    (hnotown : ((db.channels.filter (fun ch => ch.userId = userId)).map (fun ch => ch.id)).contains c0 = false) :
    publishHandler db files now refreshO uploadO userId vidId channelIds
      = ⟨.error (.forbidden "Channel not found or not authorized"), db, files, []⟩ := by
  have hfind : (channelIds.find? (fun c =>
      ¬ ((db.channels.filter (fun ch => ch.userId = userId)).map (fun ch => ch.id)).contains c)).isSome := by
    rw [List.find?_isSome]
    exact ⟨c0, hmem, by simpa using hnotown⟩
  obtain ⟨c1, hc1⟩ := Option.isSome_iff_exists.mp hfind
  unfold publishHandler
  simp only [hne, hv, hown, hfp, hc1]
  simp

theorem publish_rejects_unowned_channel_entirely_witness :
    (["A", "B"] : List String).isEmpty = false ∧
    (Db.mk [⟨"v", "u", "t", none, none, some "f.mp4", none, "draft", [], none, none, none, none⟩]
        [⟨"A", "u"⟩] [] []).videos.find? (fun v => v.id = "v")
      = some ⟨"v", "u", "t", none, none, some "f.mp4", none, "draft", [], none, none, none, none⟩ ∧
    (VideoRec.mk "v" "u" "t" none none (some "f.mp4") none "draft" [] none none none none).userId = "u" ∧
    (VideoRec.mk "v" "u" "t" none none (some "f.mp4") none "draft" [] none none none none).filePath = some "f.mp4" ∧
    "B" ∈ (["A", "B"] : List String) ∧
    (((Db.mk [⟨"v", "u", "t", none, none, some "f.mp4", none, "draft", [], none, none, none, none⟩]
        [⟨"A", "u"⟩] [] []).channels.filter (fun ch => ch.userId = "u")).map (fun ch => ch.id)).contains "B" = false ∧
    publishHandler
        ⟨[⟨"v", "u", "t", none, none, some "f.mp4", none, "draft", [], none, none, none, none⟩],
         [⟨"A", "u"⟩], [], []⟩ ["f.mp4"] 0 (fun _ => none) (fun _ _ => UploadOutcome.threw) "u" "v" ["A", "B"]
      = ⟨.error (.forbidden "Channel not found or not authorized"),
         ⟨[⟨"v", "u", "t", none, none, some "f.mp4", none, "draft", [], none, none, none, none⟩],
          [⟨"A", "u"⟩], [], []⟩, ["f.mp4"], []⟩ :=
  ⟨by decide, by decide, by decide, by decide, by decide, by decide,
   publish_rejects_unowned_channel_entirely _ _ _ _ _ _ _ _
     ⟨"v", "u", "t", none, none, some "f.mp4", none, "draft", [], none, none, none, none⟩ "f.mp4" "B"
     (by decide) (by decide) (by decide) (by decide) (by decide) (by decide)⟩

/-- C8: publishing a video whose stored file path is null fails with the
400 precondition error "Video file not found", performs no external call,
and leaves the store (including the video record) and the upload directory
unchanged. -/
theorem publish_missing_file_precondition
    (db : Db) (files : List String) (now : Nat)
    (refreshO : String → Option RefreshResult)
    (uploadO : String → String → UploadOutcome)
    (userId vidId : String) (channelIds : List String) (video : VideoRec)
    (hne : channelIds.isEmpty = false)
    (hv : db.videos.find? (fun v => v.id = vidId) = some video)
    (hown : video.userId = userId)
    (hfp : video.filePath = none) :
    publishHandler db files now refreshO uploadO userId vidId channelIds
      = ⟨.error (.badRequest "Video file not found"), db, files, []⟩ := by
  unfold publishHandler
  simp only [hne, hv, hown, hfp]
  simp

theorem publish_missing_file_precondition_witness :
    (["A"] : List String).isEmpty = false ∧
    (Db.mk [⟨"v", "u", "t", none, none, none, none, "published", ["A"], none, none, none, none⟩]
        [⟨"A", "u"⟩] [] []).videos.find? (fun v => v.id = "v")
      = some ⟨"v", "u", "t", none, none, none, none, "published", ["A"], none, none, none, none⟩ ∧
    (VideoRec.mk "v" "u" "t" none none none none "published" ["A"] none none none none).userId = "u" ∧
    (VideoRec.mk "v" "u" "t" none none none none "published" ["A"] none none none none).filePath = none ∧
    publishHandler
        ⟨[⟨"v", "u", "t", none, none, none, none, "published", ["A"], none, none, none, none⟩],
         [⟨"A", "u"⟩], [], []⟩ [] 0 (fun _ => none) (fun _ _ => UploadOutcome.threw) "u" "v" ["A"]
      = ⟨.error (.badRequest "Video file not found"),
         ⟨[⟨"v", "u", "t", none, none, none, none, "published", ["A"], none, none, none, none⟩],
          [⟨"A", "u"⟩], [], []⟩, [], []⟩ :=
  ⟨by decide, by decide, by decide, by decide,
   publish_missing_file_precondition _ _ _ _ _ _ _ _
     ⟨"v", "u", "t", none, none, none, none, "published", ["A"], none, none, none, none⟩
     (by decide) (by decide) (by decide) (by decide)⟩

theorem contains_of_mem (cs : List String) (c : String) (h : c ∈ cs) :
    cs.contains c = true := by
  simpa using h

theorem any_map_call (l : List String) (f : String → List ExtCall)
    (p : List ExtCall → Bool) :
    (l.map f).any p = l.any (fun x => p (f x)) := by
  induction l with
  | nil => rfl
  | cons x xs ih => simp [List.any_cons, ih]

/-- C3: once a multi-channel publish request passes validation, the loop is
best-effort per channel: the response's published set is exactly the
requested channels whose upload succeeded (each judged from its own token
row and the oracles alone, so one channel's failure — e.g. an expired token
with no refresh token — never affects the others), and an upload call is
made for a requested channel exactly when an access token could be
resolved for it. -/
theorem publish_best_effort_per_channel
    (db : Db) (files : List String) (now : Nat)
    (refreshO : String → Option RefreshResult)
    (uploadO : String → String → UploadOutcome)
    (userId vidId : String) (channelIds : List String)
    (video : VideoRec) (fp : String)
    (hne : channelIds.isEmpty = false)
    (hnd : channelIds.Nodup)
    (hv : db.videos.find? (fun v => v.id = vidId) = some video)
    (hown : video.userId = userId)
    (hfp : video.filePath = some fp)
    (hch : channelIds.find? (fun c =>
      ¬ ((db.channels.filter (fun ch => ch.userId = userId)).map (fun ch => ch.id)).contains c) = none)
    (hcred : (db.credentials.find? (fun e => e.1 = userId)).isSome = true) :
    (publishHandler db files now refreshO uploadO userId vidId channelIds).response
      = .ok ⟨channelIds.filter (fun c => channelUploadSucceeds db.tokens now refreshO uploadO c),
             (channelIds.map (channelVidEntry db.tokens now refreshO uploadO)).join⟩ ∧
    (∀ c ∈ channelIds,
      hasUploadCall (publishHandler db files now refreshO uploadO userId vidId channelIds).calls c
        = channelTokenUsable db.tokens now refreshO c) := by
  have hred := publishHandler_validated db files now refreshO uploadO userId vidId channelIds
    video fp hne hv hown hfp hch hcred
  obtain ⟨h1, h2, h3⟩ := publishFold_spec now refreshO uploadO db.tokens channelIds
    ⟨db.tokens, [], [], []⟩ hnd (fun c _ => rfl)
  rw [hred]
  dsimp only
  constructor
  · rw [h1, h2]
    simp
  · intro c hmem
    rw [h3, List.nil_append, hasUploadCall_join, any_map_call]
    have heq : (fun c' => hasUploadCall (channelCallTrace db.tokens now refreshO c') c)
        = fun c' => decide (c' = c) && channelTokenUsable db.tokens now refreshO c' := by
      funext c'
      exact hasUploadCall_channelCallTrace db.tokens now refreshO c' c
    rw [heq, any_marker_eq, contains_of_mem channelIds c hmem]
    simp

theorem publish_best_effort_per_channel_witness :
    (["A", "B"] : List String).isEmpty = false ∧
    (["A", "B"] : List String).Nodup ∧
    (Db.mk [⟨"v", "u", "demo", none, none, some "demo.mp4", none, "draft", [], none, none, none, none⟩]
        [⟨"A", "u"⟩, ⟨"B", "u"⟩]
        [⟨"A", "atA", none, none⟩, ⟨"B", "atB", none, some 5⟩]
        [("u", ⟨"cid", "csec"⟩)]).videos.find? (fun v => v.id = "v")
      = some ⟨"v", "u", "demo", none, none, some "demo.mp4", none, "draft", [], none, none, none, none⟩ ∧
    (VideoRec.mk "v" "u" "demo" none none (some "demo.mp4") none "draft" [] none none none none).userId = "u" ∧
    (VideoRec.mk "v" "u" "demo" none none (some "demo.mp4") none "draft" [] none none none none).filePath
      = some "demo.mp4" ∧
    (publishHandler
        ⟨[⟨"v", "u", "demo", none, none, some "demo.mp4", none, "draft", [], none, none, none, none⟩],
         [⟨"A", "u"⟩, ⟨"B", "u"⟩],
         [⟨"A", "atA", none, none⟩, ⟨"B", "atB", none, some 5⟩],
         [("u", ⟨"cid", "csec"⟩)]⟩ ["demo.mp4"] 10 (fun _ => none)
        (fun c _ => if c = "A" then UploadOutcome.succeeded "yt1" else UploadOutcome.threw)
        "u" "v" ["A", "B"]).response
      = .ok ⟨(["A", "B"] : List String).filter (fun c => channelUploadSucceeds
               [⟨"A", "atA", none, none⟩, ⟨"B", "atB", none, some 5⟩] 10 (fun _ => none)
               (fun c _ => if c = "A" then UploadOutcome.succeeded "yt1" else UploadOutcome.threw) c),
             ((["A", "B"] : List String).map (channelVidEntry
               [⟨"A", "atA", none, none⟩, ⟨"B", "atB", none, some 5⟩] 10 (fun _ => none)
               (fun c _ => if c = "A" then UploadOutcome.succeeded "yt1" else UploadOutcome.threw))).join⟩ ∧
    (∀ c ∈ (["A", "B"] : List String),
      hasUploadCall (publishHandler
          ⟨[⟨"v", "u", "demo", none, none, some "demo.mp4", none, "draft", [], none, none, none, none⟩],
           [⟨"A", "u"⟩, ⟨"B", "u"⟩],
           [⟨"A", "atA", none, none⟩, ⟨"B", "atB", none, some 5⟩],
           [("u", ⟨"cid", "csec"⟩)]⟩ ["demo.mp4"] 10 (fun _ => none)
          (fun c _ => if c = "A" then UploadOutcome.succeeded "yt1" else UploadOutcome.threw)
          "u" "v" ["A", "B"]).calls c
        = channelTokenUsable [⟨"A", "atA", none, none⟩, ⟨"B", "atB", none, some 5⟩] 10 (fun _ => none) c) :=
  ⟨by decide, by decide, by decide, by decide, by decide,
   publish_best_effort_per_channel _ _ _ _ _ _ _ _
     ⟨"v", "u", "demo", none, none, some "demo.mp4", none, "draft", [], none, none, none, none⟩ "demo.mp4"
     (by decide) (by decide) (by decide) (by decide) (by decide) (by decide) (by decide)⟩

/-- C10: when every per-channel upload of a validated multi-channel publish
fails (zero successes), the operation still completes successfully: the
response is a success with an empty published set and no external ids, the
video row is marked `published` with an empty published-channels list and
its stored external video id left absent, and the local file is removed
from the upload directory. -/
theorem publish_zero_successes_still_succeeds
    (db : Db) (files : List String) (now : Nat)
    (refreshO : String → Option RefreshResult)
    (uploadO : String → String → UploadOutcome)
    (userId vidId : String) (channelIds : List String)
    (video : VideoRec) (fp : String)
    (hne : channelIds.isEmpty = false)
    (hnd : channelIds.Nodup)
    (hv : db.videos.find? (fun v => v.id = vidId) = some video)
    (hown : video.userId = userId)
    (hfp : video.filePath = some fp)
    (hch : channelIds.find? (fun c =>
      ¬ ((db.channels.filter (fun ch => ch.userId = userId)).map (fun ch => ch.id)).contains c) = none)
    (hcred : (db.credentials.find? (fun e => e.1 = userId)).isSome = true)
    (hyid : video.youtubeVideoId = none)
    (hall : ∀ c ∈ channelIds,
      channelUploadSucceeds db.tokens now refreshO uploadO c = false) :
    (publishHandler db files now refreshO uploadO userId vidId channelIds).response
      = .ok ⟨[], []⟩ ∧
    (publishHandler db files now refreshO uploadO userId vidId channelIds).db.videos.find?
        (fun v => v.id = vidId)
      = some { video with status := "published", publishedChannels := [], youtubeVideoId := none } ∧
    fp ∉ (publishHandler db files now refreshO uploadO userId vidId channelIds).files := by
  have hred := publishHandler_validated db files now refreshO uploadO userId vidId channelIds
    video fp hne hv hown hfp hch hcred
  obtain ⟨h1, h2, h3⟩ := publishFold_spec now refreshO uploadO db.tokens channelIds
    ⟨db.tokens, [], [], []⟩ hnd (fun c _ => rfl)
  have hpub : (channelIds.foldl (publishChannelStep now refreshO uploadO)
      ⟨db.tokens, [], [], []⟩).published = [] := by
    rw [h1, List.nil_append, List.filter_eq_nil]
    intro c hmem
    simp [hall c hmem]
  have hvid : (channelIds.foldl (publishChannelStep now refreshO uploadO)
      ⟨db.tokens, [], [], []⟩).vidIds = [] := by
    rw [h2, List.nil_append]
    rw [List.join_eq_nil]
    intro l hl
    obtain ⟨c, hmem, hcl⟩ := List.mem_map.mp hl
    rw [← hcl]
    exact channelVidEntry_eq_nil db.tokens now refreshO uploadO c (hall c hmem)
  rw [hred]
  dsimp only
  refine ⟨?_, ?_, ?_⟩
  · rw [hpub, hvid]
  · rw [hpub, hvid]
    have hupd := find?_map_update db.videos vidId
      (fun v => applyPublishUpdate v [] ((([] : List (String × String)).head?).map (fun e => e.2)))
      (fun v => rfl)
    rw [hupd, hv]
    simp [applyPublishUpdate, hyid]
  · simp [List.mem_filter]

theorem publish_zero_successes_still_succeeds_witness :
    (["A"] : List String).isEmpty = false ∧
    (["A"] : List String).Nodup ∧
    (Db.mk [⟨"v", "u", "t", none, none, some "f.mp4", none, "draft", [], none, none, none, none⟩]
        [⟨"A", "u"⟩] [] [("u", ⟨"i", "s"⟩)]).videos.find? (fun v => v.id = "v")
      = some ⟨"v", "u", "t", none, none, some "f.mp4", none, "draft", [], none, none, none, none⟩ ∧
    (VideoRec.mk "v" "u" "t" none none (some "f.mp4") none "draft" [] none none none none).userId = "u" ∧
    (VideoRec.mk "v" "u" "t" none none (some "f.mp4") none "draft" [] none none none none).filePath
      = some "f.mp4" ∧
    (VideoRec.mk "v" "u" "t" none none (some "f.mp4") none "draft" [] none none none none).youtubeVideoId
      = none ∧
    ((publishHandler
        ⟨[⟨"v", "u", "t", none, none, some "f.mp4", none, "draft", [], none, none, none, none⟩],
         [⟨"A", "u"⟩], [], [("u", ⟨"i", "s"⟩)]⟩ ["f.mp4"] 0 (fun _ => none)
        (fun _ _ => UploadOutcome.threw) "u" "v" ["A"]).response
      = .ok ⟨[], []⟩ ∧
    (publishHandler
        ⟨[⟨"v", "u", "t", none, none, some "f.mp4", none, "draft", [], none, none, none, none⟩],
         [⟨"A", "u"⟩], [], [("u", ⟨"i", "s"⟩)]⟩ ["f.mp4"] 0 (fun _ => none)
        (fun _ _ => UploadOutcome.threw) "u" "v" ["A"]).db.videos.find? (fun v => v.id = "v")
      = some { VideoRec.mk "v" "u" "t" none none (some "f.mp4") none "draft" [] none none none none with
               status := "published", publishedChannels := [], youtubeVideoId := none } ∧
    "f.mp4" ∉ (publishHandler
        ⟨[⟨"v", "u", "t", none, none, some "f.mp4", none, "draft", [], none, none, none, none⟩],
         [⟨"A", "u"⟩], [], [("u", ⟨"i", "s"⟩)]⟩ ["f.mp4"] 0 (fun _ => none)
        (fun _ _ => UploadOutcome.threw) "u" "v" ["A"]).files) :=
  ⟨by decide, by decide, by decide, by decide, by decide, by decide,
   publish_zero_successes_still_succeeds _ _ _ _ _ _ _ _
     ⟨"v", "u", "t", none, none, some "f.mp4", none, "draft", [], none, none, none, none⟩ "f.mp4"
     (by decide) (by decide) (by decide) (by decide) (by decide) (by decide) (by decide) (by decide)
     (by decide)⟩
